import Mathlib

/-!
Shallow embedding of the two media-player adapters of this repository:

* `custom_components/samsungtv_custom2/media_player.py` — the Samsung
  (WebSocket) adapter: `SamsungTVDevice.send_command`, `turn_off`,
  `_power_off_in_progress`, `async_select_source`.
* `custom_components/androidtv/media_player.py` — the Android TV / Fire TV
  (debug-bridge) adapter: `adb_decorator`, `ADBDevice.select_source`,
  `ADBDevice.adb_command`, `AndroidTVDevice.update` / `FireTVDevice.update`,
  and the `ANDROIDTV_STATES` mapping.

Python values are modelled explicitly: `None` becomes `Option.none`, machine
time becomes `Nat` (abstract time units; 15 seconds is the literal `15`),
exceptions raised by the external transport become explicit outcome values fed
to the embedded function, and every call made to the transport is recorded in
a trace list so that "no transport call is made" is a statement about the
trace.
-/

namespace SamsungTV

/-- Home-assistant state constants used by the Samsung adapter
(`STATE_ON` / `STATE_OFF`). -/
inductive SamState where
  | on
  | off
  deriving DecidableEq, Repr

/-- Calls observable at the transport boundary of the Samsung adapter:
`self._remote.send_key`, `self._remote.run_app`, `self._remote.close`. -/
inductive SamCall where
  | sendKey (payload : String)
  | runApp (payload : String)
  | close
  deriving DecidableEq, Repr

/-- The mutable attributes of `SamsungTVDevice` relevant to command dispatch:
`self._state` (initially `None`), `self._end_of_power_off` (an optional
deadline timestamp), `self._playing` and `self._muted`. -/
structure SamsungState where
  state : Option SamState
  endOfPowerOff : Option Nat
  playing : Bool
  muted : Bool
  deriving DecidableEq, Repr

/-- Outcome of one attempt of a transport call inside `send_command`:
it returns normally, or raises one of `ConnectionResetError` /
`AttributeError` / `BrokenPipeError` (caught by the inner handler),
or raises `websocket._exceptions.WebSocketTimeoutException`,
or raises an `OSError` (each caught by an outer handler). -/
inductive TransportResult where
  | ok
  | connErr
  | wsTimeout
  | osErr
  deriving DecidableEq, Repr

/-- How the retry loop of `send_command` terminates: normally (a `break`, or
the `for` range exhausted), or by an exception escaping to the
`WebSocketTimeoutException` / `OSError` handler. -/
inductive LoopExit where
  | done
  | timeout
  | oserr
  deriving DecidableEq, Repr

/-- `SamsungTVDevice._power_off_in_progress`:
`self._end_of_power_off is not None and self._end_of_power_off > utcnow()`. -/
def powerOffInProgress (st : SamsungState) (now : Nat) : Bool :=
  match st.endOfPowerOff with
  | none => false
  | some d => now < d

/-- The `for _ in range(retry_count + 1)` loop of `send_command`: each
iteration attempts the transport call (`run_app` or `send_key`); on success it
breaks; on `ConnectionResetError`/`AttributeError`/`BrokenPipeError` it closes
the remote and retries; a `WebSocketTimeoutException` or `OSError` escapes the
loop. `transport i` is the outcome of the i-th attempt; the returned list
records the calls made. -/
def sendLoop (transport : Nat → TransportResult) (call : SamCall) :
    Nat → Nat → List SamCall × LoopExit
  | _, 0 => ([], LoopExit.done)
  | i, fuel + 1 =>
    match transport i with
    | TransportResult.ok => ([call], LoopExit.done)
    | TransportResult.connErr =>
      let rest := sendLoop transport call (i + 1) fuel
      (call :: SamCall.close :: rest.1, rest.2)
    | TransportResult.wsTimeout => ([call], LoopExit.timeout)
    | TransportResult.osErr => ([call], LoopExit.oserr)

/-- `SamsungTVDevice.send_command(payload, command_type, retry_count)`.
Returns the new attribute state, the Python return value (`False` when the
power-off cooldown swallows the command, `True` otherwise), and the trace of
transport calls. `now` is the value of `dt_util.utcnow()` during the call. -/
def send_command (st : SamsungState) (payload commandType : String)
    (retryCount : Nat) (now : Nat) (transport : Nat → TransportResult) :
    SamsungState × Bool × List SamCall :=
  if powerOffInProgress st now ∧ payload ≠ "KEY_POWER" ∧ payload ≠ "KEY_POWEROFF" then
    (st, false, [])
  else
    let call := if commandType = "run_app" then SamCall.runApp payload
                else SamCall.sendKey payload
    let r := sendLoop transport call 0 (retryCount + 1)
    let st1 :=
      match r.2 with
      | LoopExit.done => { st with state := some SamState.on }
      | LoopExit.timeout => { st with state := some SamState.on }
      | LoopExit.oserr => { st with state := some SamState.off }
    let calls :=
      match r.2 with
      | LoopExit.done => r.1
      | LoopExit.timeout => r.1 ++ [SamCall.close]
      | LoopExit.oserr => r.1 ++ [SamCall.close]
    let st2 := if powerOffInProgress st1 now then { st1 with state := some SamState.off }
               else st1
    (st2, true, calls)

/-- `SamsungTVDevice.turn_off`: set
`self._end_of_power_off = utcnow() + timedelta(seconds=15)`, send
`KEY_POWER` (WebSocket connection) or `KEY_POWEROFF` (legacy port), then
best-effort `self._remote.close()` with `OSError` swallowed. -/
def turn_off (st : SamsungState) (isWs : Bool) (now : Nat)
    (transport : Nat → TransportResult) : SamsungState × List SamCall :=
  let st1 := { st with endOfPowerOff := some (now + 15) }
  let key := if isWs then "KEY_POWER" else "KEY_POWEROFF"
  let r := send_command st1 key "send_key" 1 now transport
  (r.1, r.2.2 ++ [SamCall.close])

/-- `SamsungTVDevice.async_select_source`: a source found in the configured
source table issues `send_command` with its native key; otherwise a source
found in the app table issues a `run_app` command with its app id; otherwise
only an error is logged and no transport command is dispatched. -/
def async_select_source (sourceList appList : List (String × String))
    (source : String) : Option SamCall :=
  match sourceList.lookup source with
  | some key => some (SamCall.sendKey key)
  | none =>
    match appList.lookup source with
    | some appId => some (SamCall.runApp appId)
    | none => none

end SamsungTV

namespace AndroidTV

/-- Python exception classes occurring in the Android TV / Fire TV adapter:
the `ADBDevice.exceptions` tuples list a fixed subset of these, and `other`
stands for any exception class outside them. -/
inductive PyExc where
  | attributeError
  | brokenPipeError
  | typeError
  | valueError
  | invalidChecksumError
  | invalidCommandError
  | invalidResponseError
  | tcpTimeoutException
  | connectionResetError
  | runtimeError
  | other
  deriving DecidableEq, Repr

/-- `ADBDevice.__init__`: the tuple `self.exceptions` of ADB exceptions to
catch — one fixed set when using the Python ADB implementation
(`aftv.adb_server_ip` unset), another when using an ADB server. -/
def adbExceptions (adbServerIp : Bool) : List PyExc :=
  if adbServerIp then
    [PyExc.connectionResetError, PyExc.runtimeError]
  else
    [PyExc.attributeError, PyExc.brokenPipeError, PyExc.typeError,
     PyExc.valueError, PyExc.invalidChecksumError, PyExc.invalidCommandError,
     PyExc.invalidResponseError, PyExc.tcpTimeoutException]

/-- The part of an `ADBDevice` that `adb_decorator` reads and writes:
`self._available`, whether `self.aftv.adb_close()` has been called,
`self.exceptions`, plus the remaining attributes (`inner`), generic because
the decorator wraps every control and poll method. -/
structure AdbDev (σ : Type) where
  available : Bool
  adbClosed : Bool
  excs : List PyExc
  inner : σ
  deriving Repr

/-- Outcome of calling the wrapped Python method: a normal return carrying the
updated device and the returned value (`none` models Python `None`), or an
exception `e` raised with the device left in state `st`. -/
inductive FuncOutcome (σ α : Type) where
  | ok (st : AdbDev σ) (v : Option α)
  | raises (st : AdbDev σ) (e : PyExc)

/-- Result of a decorated call: a Python return value (`ret none` is `None`),
or an exception propagating out of the wrapper. -/
inductive WrapResult (α : Type) where
  | ret (v : Option α)
  | raised (e : PyExc)
  deriving Repr

/-- `adb_decorator(override_available)` applied to a method `func`:
when the device is unavailable and the override flag is absent, return `None`
without invoking `func`; otherwise invoke it, and on an exception in
`self.exceptions` close the ADB connection, set `self._available = False` and
return `None`; any other exception propagates. The third component records
whether `func` was invoked. -/
def adbWrap {σ α : Type} (overrideAvailable : Bool)
    (func : AdbDev σ → FuncOutcome σ α) (st : AdbDev σ) :
    AdbDev σ × WrapResult α × Bool :=
  if ¬ st.available ∧ ¬ overrideAvailable then
    (st, WrapResult.ret none, false)
  else
    match func st with
    | FuncOutcome.ok st' v => (st', WrapResult.ret v, true)
    | FuncOutcome.raises st' e =>
      if e ∈ st.excs then
        ({ st' with adbClosed := true, available := false }, WrapResult.ret none, true)
      else
        (st', WrapResult.raised e, true)

/-- Home-assistant states in the codomain of the `ANDROIDTV_STATES`
dictionary (`STATE_OFF`, `STATE_IDLE`, `STATE_STANDBY`, `STATE_PLAYING`,
`STATE_PAUSED`). -/
inductive HAState where
  | off
  | idle
  | standby
  | playing
  | paused
  deriving DecidableEq, Repr

/-- The `ANDROIDTV_STATES` dictionary translating the native state string
reported by the `AndroidTV` / `FireTV` client to a home-assistant state. -/
def ANDROIDTV_STATES : List (String × HAState) :=
  [("off", HAState.off), ("idle", HAState.idle), ("standby", HAState.standby),
   ("playing", HAState.playing), ("paused", HAState.paused)]

/-- Python `dict.get(key, default)` over an association-list model of the
dictionary. -/
def pyGetD (table : List (String × String)) (key default : String) : String :=
  (table.lookup key).getD default

/-- Python `str.startswith(pre)`: the characters of `pre` are a prefix of the
characters of `s`. -/
def pyStartsWith (s pre : String) : Bool :=
  pre.data.isPrefixOf s.data

/-- Python `str.lstrip()`: drop leading whitespace. -/
def pyLstrip (s : String) : String :=
  String.mk (s.data.dropWhile Char.isWhitespace)

/-- Python `str.strip()`: drop leading and trailing whitespace. -/
def pyStrip (s : String) : String :=
  String.mk (((s.data.dropWhile Char.isWhitespace).reverse.dropWhile
    Char.isWhitespace).reverse)

/-- Transport calls issued by `ADBDevice.select_source`:
`self.aftv.launch_app(app_id)` or `self.aftv.stop_app(app_id)`. -/
inductive AppCall where
  | launch (appId : String)
  | stop (appId : String)
  deriving DecidableEq, Repr

/-- `ADBDevice.select_source(source)` for a string `source` (non-string
arguments do nothing): a source starting with `!` has the `!` stripped, then
leading whitespace, and the result is resolved through `self._app_name_to_id`
and stopped; any other source is resolved the same way and launched. The
returned list is the trace of transport calls (always exactly one here). -/
def select_source (appNameToId : List (String × String)) (source : String) :
    List AppCall :=
  if ¬ pyStartsWith source "!" then
    [AppCall.launch (pyGetD appNameToId source source)]
  else
    let source_ := pyLstrip (source.drop 1)
    [AppCall.stop (pyGetD appNameToId source_ source_)]

/-- Result of `ADBDevice.adb_command(cmd)`: the shell commands issued through
`self.aftv.adb_shell`, whether `self.aftv.get_properties_dict()` was called,
the value stored in `self._adb_response`, and the Python return value. -/
structure AdbCmdResult where
  shellCalls : List String
  gotProperties : Bool
  adbResponse : Option String
  retval : Option String
  deriving DecidableEq, Repr

/-- `ADBDevice.adb_command(cmd)`. `keys` models the `KEYS` key-event table
(symbolic key name → numeric key code); `props` is the string form
`str(self.aftv.get_properties_dict())` of the property dump; `shellResp` is
the transport's response to a literal shell command (`none` models a
non-string response such as `None`). A symbolic key with a truthy (nonzero)
code is injected as `input keyevent <code>` and clears the stored response;
the literal command `GET_PROPERTIES` stores and returns the property dump
without a shell call; anything else is run as a literal shell command and its
stripped response is stored, `None` when empty or non-string. -/
def adb_command (keys : List (String × Nat)) (props : String)
    (shellResp : Option String) (cmd : String) : AdbCmdResult :=
  match keys.lookup cmd with
  | some (k + 1) =>
    { shellCalls := ["input keyevent " ++ toString (k + 1)],
      gotProperties := false, adbResponse := none, retval := none }
  | _ =>
    if cmd = "GET_PROPERTIES" then
      { shellCalls := [], gotProperties := true,
        adbResponse := some props, retval := some props }
    else
      let resp :=
        match shellResp with
        | some s => if pyStrip s ≠ "" then some (pyStrip s) else none
        | none => none
      { shellCalls := [cmd], gotProperties := false,
        adbResponse := resp, retval := resp }

/-- The attributes of an `AndroidTVDevice` read and written by its `update`
method: `self._available`, `self._state`, `self._current_app`,
`self._sources`, `self._is_volume_muted` and `self._volume_level` (the last
two typed abstractly — `update` stores them verbatim). -/
structure AtvState (μ ν : Type) where
  available : Bool
  state : Option HAState
  currentApp : Option String
  sources : Option (List String)
  muted : μ
  volume : ν
  deriving Repr

/-- The tuple returned by `self.aftv.update(self._get_sources)` for an
Android TV device: native state string, current app, running-apps list
(`none` models Python `None`), an ignored component, mute flag and volume. -/
structure AftvPoll (μ ν : Type) where
  state : String
  currentApp : Option String
  runningApps : Option (List String)
  muted : μ
  volume : ν
  deriving Repr

/-- What a poll cycle did: how many times `self.aftv.adb_connect` was called
and whether `self.aftv.update` (the state query) was called. -/
structure PollTrace where
  reconnects : Nat
  stateQueried : Bool
  deriving DecidableEq, Repr

/-- The branching shared by `AndroidTVDevice.update` and
`FireTVDevice.update` after the reconnect block: if the connection is not
intact, stop; otherwise store the polled attributes, translate the native
state string through `ANDROIDTV_STATES` (an unrecognized string leaves
`self._state = None` and sets `self._available = False`), and map the
running apps through `self._app_id_to_name` into `self._sources` (`None`
when the list is empty or absent). -/
def updateQuery {μ ν : Type} (appIdToName : List (String × String))
    (poll : AftvPoll μ ν) (st : AtvState μ ν) (recon : Nat) :
    AtvState μ ν × PollTrace :=
  if ¬ st.available then
    (st, { reconnects := recon, stateQueried := false })
  else
    let st1 := { st with currentApp := poll.currentApp,
                         muted := poll.muted, volume := poll.volume }
    let hastate := ANDROIDTV_STATES.lookup poll.state
    let st2 := { st1 with state := hastate }
    let st3 := if hastate = none then { st2 with available := false } else st2
    let st4 :=
      match poll.runningApps with
      | some (a :: rest) =>
        { st3 with sources := some ((a :: rest).map
            (fun appId => pyGetD appIdToName appId appId)) }
      | _ => { st3 with sources := none }
    (st4, { reconnects := recon, stateQueried := true })

/-- The body of `AndroidTVDevice.update` (and, volume fields aside,
`FireTVDevice.update`): when the device is disconnected, attempt exactly one
reconnect (`connectResult` is what `self.aftv.adb_connect` returned) and — if
using the Python ADB implementation, i.e. `self.aftv.adb_server_ip` is unset
— return without querying state; otherwise fall through to the query step. -/
def atvUpdate {μ ν : Type} (adbServerIp : Bool) (connectResult : Bool)
    (appIdToName : List (String × String)) (poll : AftvPoll μ ν)
    (st : AtvState μ ν) : AtvState μ ν × PollTrace :=
  if ¬ st.available then
    let st1 := { st with available := connectResult }
    if ¬ adbServerIp then
      (st1, { reconnects := 1, stateQueried := false })
    else
      updateQuery appIdToName poll st1 1
  else
    updateQuery appIdToName poll st 0

end AndroidTV

open SamsungTV AndroidTV

/-- Setting only the `state` field leaves the cooldown predicate unchanged. -/
theorem powerOffInProgress_set_state (st : SamsungState) (x : Option SamState)
    (now : Nat) :
    powerOffInProgress { st with state := x } now = powerOffInProgress st now := rfl

/-- `send_command` never touches `self._end_of_power_off`. -/
theorem send_command_endOfPowerOff (st : SamsungState) (p ct : String)
    (rc now : Nat) (tr : Nat → TransportResult) :
    (send_command st p ct rc now tr).1.endOfPowerOff = st.endOfPowerOff := by
  unfold send_command
  split
  · rfl
  · dsimp only
    cases (sendLoop tr (if ct = "run_app" then SamCall.runApp p else SamCall.sendKey p)
        0 (rc + 1)).2 <;> dsimp only <;> split <;> rfl

/-- C10: the Python return value of `send_command` is `False` exactly when
the power-off cooldown is in progress and the payload is neither `KEY_POWER`
nor `KEY_POWEROFF`; on every other path — including the handled
`WebSocketTimeoutException` and `OSError` paths — it is `True`. -/
theorem send_command_false_iff (st : SamsungState) (p ct : String)
    (rc now : Nat) (tr : Nat → TransportResult) :
    (send_command st p ct rc now tr).2.1 = false ↔
      (powerOffInProgress st now = true ∧ p ≠ "KEY_POWER" ∧ p ≠ "KEY_POWEROFF") := by
  unfold send_command
  split
  · next h => simpa using h
  · next h => simpa using h

/-- C2 counterexample: during the cooldown window (deadline 15, now 5) with
the exposed state reading "on" (as the ping-based `update` can set it during
the window), the non-power command `KEY_VOLUP` makes no transport call but
completes with the exposed state still "on", not "off": the early-return
branch of `send_command` does not force the state to "off". -/
theorem send_command_cooldown_state_counterexample :
    (send_command ⟨some SamState.on, some 15, true, false⟩ "KEY_VOLUP" "send_key"
        1 5 (fun _ => TransportResult.ok)).2.2 = [] ∧
    (send_command ⟨some SamState.on, some 15, true, false⟩ "KEY_VOLUP" "send_key"
        1 5 (fun _ => TransportResult.ok)).1.state = some SamState.on ∧
    (send_command ⟨some SamState.on, some 15, true, false⟩ "KEY_VOLUP" "send_key"
        1 5 (fun _ => TransportResult.ok)).1.state ≠ some SamState.off := by
  refine ⟨rfl, rfl, ?_⟩
  decide

/-- C2 amended: strictly before the cooldown deadline, every non-power
command is rejected before any transport call, returning `False` with the
whole device state (in particular the exposed state) unchanged; any command
that does reach the transport during the window (a power key) leaves the
exposed state forced to "off" when it completes. -/
theorem send_command_cooldown_window (st : SamsungState) (p ct : String)
    (rc now : Nat) (tr : Nat → TransportResult)
    (hwin : powerOffInProgress st now = true) :
    (p ≠ "KEY_POWER" → p ≠ "KEY_POWEROFF" →
      send_command st p ct rc now tr = (st, false, [])) ∧
    (p = "KEY_POWER" ∨ p = "KEY_POWEROFF" →
      (send_command st p ct rc now tr).1.state = some SamState.off) := by
  constructor
  · intro h1 h2
    unfold send_command
    rw [if_pos ⟨hwin, h1, h2⟩]
  · intro hp
    unfold send_command
    rw [if_neg]
    · dsimp only
      cases (sendLoop tr (if ct = "run_app" then SamCall.runApp p else SamCall.sendKey p)
          0 (rc + 1)).2 <;>
        dsimp only <;>
        rw [powerOffInProgress_set_state, hwin] <;>
        rfl
    · rcases hp with hp | hp <;> simp [hp]

/-- C2 witness: a concrete run of both branches of
`send_command_cooldown_window` (deadline 15, now 5). -/
theorem send_command_cooldown_window_witness :
    send_command ⟨some SamState.off, some 15, true, false⟩ "KEY_VOLUP" "send_key"
        1 5 (fun _ => TransportResult.ok) =
      (⟨some SamState.off, some 15, true, false⟩, false, []) ∧
    (send_command ⟨some SamState.off, some 15, true, false⟩ "KEY_POWER" "send_key"
        1 5 (fun _ => TransportResult.ok)).1.state = some SamState.off := by
  constructor
  · exact (send_command_cooldown_window ⟨some SamState.off, some 15, true, false⟩
      "KEY_VOLUP" "send_key" 1 5 (fun _ => TransportResult.ok) (by decide)).1
      (by decide) (by decide)
  · exact (send_command_cooldown_window ⟨some SamState.off, some 15, true, false⟩
      "KEY_POWER" "send_key" 1 5 (fun _ => TransportResult.ok) (by decide)).2
      (Or.inl rfl)

/-- C3 counterexample: a first power-off at time 0 sets the cooldown deadline
to 15; a second power-off at time 10 — still inside the window — overwrites
it to 25, not the claimed time-of-first-call + 15 = 15, because `turn_off`
unconditionally assigns `self._end_of_power_off = utcnow() + 15s`. -/
theorem turn_off_twice_counterexample :
    ((turn_off ⟨none, none, true, false⟩ true 0 (fun _ => TransportResult.ok)).1).endOfPowerOff
        = some 15 ∧
    ((turn_off (turn_off ⟨none, none, true, false⟩ true 0
        (fun _ => TransportResult.ok)).1 true 10 (fun _ => TransportResult.ok)).1).endOfPowerOff
        = some 25 ∧
    ((turn_off (turn_off ⟨none, none, true, false⟩ true 0
        (fun _ => TransportResult.ok)).1 true 10 (fun _ => TransportResult.ok)).1).endOfPowerOff
        ≠ some 15 := by
  refine ⟨rfl, rfl, ?_⟩
  decide

/-- C3 amended: each `turn_off` call unconditionally overwrites the cooldown
deadline with its own call time plus 15 seconds; in particular a second
power-off inside the window of the first moves the single effective deadline
to time-of-second-call + 15, extending the window. -/
theorem turn_off_deadline_overwrite (st : SamsungState) (isWs : Bool)
    (now1 now2 : Nat) (tr1 tr2 : Nat → TransportResult)
    (hwin : now2 < now1 + 15) :
    (turn_off st isWs now1 tr1).1.endOfPowerOff = some (now1 + 15) ∧
    (turn_off (turn_off st isWs now1 tr1).1 isWs now2 tr2).1.endOfPowerOff
      = some (now2 + 15) := by
  constructor
  · unfold turn_off
    dsimp only
    rw [send_command_endOfPowerOff]
  · unfold turn_off
    dsimp only
    rw [send_command_endOfPowerOff]

/-- C3 witness: concrete instance of `turn_off_deadline_overwrite` at times 0
and 10. -/
theorem turn_off_deadline_overwrite_witness :
    (turn_off ⟨none, none, true, false⟩ true 0
        (fun _ => TransportResult.ok)).1.endOfPowerOff = some 15 ∧
    (turn_off (turn_off ⟨none, none, true, false⟩ true 0
        (fun _ => TransportResult.ok)).1 true 10
        (fun _ => TransportResult.ok)).1.endOfPowerOff = some 25 :=
  turn_off_deadline_overwrite ⟨none, none, true, false⟩ true 0 10
    (fun _ => TransportResult.ok) (fun _ => TransportResult.ok) (by decide)

/-- When every attempt raises a connection-type error
(`ConnectionResetError`/`AttributeError`/`BrokenPipeError`), the retry loop
closes the remote after each attempt and exits normally once the range is
exhausted. -/
theorem sendLoop_connErr (call : SamCall) (i fuel : Nat) :
    sendLoop (fun _ => TransportResult.connErr) call i fuel =
      ((List.replicate fuel [call, SamCall.close]).flatten, LoopExit.done) := by
  induction fuel generalizing i with
  | zero => rfl
  | succ n ih =>
    show (call :: SamCall.close ::
        (sendLoop (fun _ => TransportResult.connErr) call (i + 1) n).1, _) = _
    rw [ih (i + 1)]
    simp [List.replicate_succ]

/-- C6 counterexample: with no cooldown pending, a `KEY_VOLUP` command whose
transport call raises `WebSocketTimeoutException` closes the remote — but
the call returns `True` (a result, not `None`), and the exposed state is set
to "on"; the Samsung adapter has no availability flag to mark false. -/
theorem samsung_transport_failure_counterexample :
    (send_command ⟨none, none, true, false⟩ "KEY_VOLUP" "send_key" 1 0
        (fun _ => TransportResult.wsTimeout)).2.2 =
      [SamCall.sendKey "KEY_VOLUP", SamCall.close] ∧
    (send_command ⟨none, none, true, false⟩ "KEY_VOLUP" "send_key" 1 0
        (fun _ => TransportResult.wsTimeout)).2.1 = true ∧
    (send_command ⟨none, none, true, false⟩ "KEY_VOLUP" "send_key" 1 0
        (fun _ => TransportResult.wsTimeout)).1.state = some SamState.on := by
  exact ⟨rfl, rfl, rfl⟩

/-- C6 amended: outside the cooldown window, a handled transport failure in
`send_command` closes the remote, lets no exception surface, and returns
`True`; the exposed state records the outcome — "on" for a
`WebSocketTimeoutException` and after exhausted reset/broken-pipe retries,
"off" for an `OSError`. -/
theorem send_command_transport_failure (st : SamsungState) (p ct : String)
    (rc now : Nat) (tr : Nat → TransportResult)
    (hnw : powerOffInProgress st now = false) :
    (tr 0 = TransportResult.wsTimeout →
      send_command st p ct rc now tr =
        ({ st with state := some SamState.on }, true,
          [if ct = "run_app" then SamCall.runApp p else SamCall.sendKey p,
           SamCall.close])) ∧
    (tr 0 = TransportResult.osErr →
      send_command st p ct rc now tr =
        ({ st with state := some SamState.off }, true,
          [if ct = "run_app" then SamCall.runApp p else SamCall.sendKey p,
           SamCall.close])) ∧
    ((∀ i, tr i = TransportResult.connErr) →
      send_command st p ct rc now tr =
        ({ st with state := some SamState.on }, true,
          (List.replicate (rc + 1)
            [if ct = "run_app" then SamCall.runApp p else SamCall.sendKey p,
             SamCall.close]).flatten)) := by
  have hg : ¬ (powerOffInProgress st now = true ∧ p ≠ "KEY_POWER" ∧ p ≠ "KEY_POWEROFF") := by
    simp [hnw]
  refine ⟨fun h0 => ?_, fun h0 => ?_, fun h0 => ?_⟩
  · have hl : sendLoop tr (if ct = "run_app" then SamCall.runApp p else SamCall.sendKey p)
        0 (rc + 1) = ([if ct = "run_app" then SamCall.runApp p else SamCall.sendKey p],
          LoopExit.timeout) := by
      unfold sendLoop
      rw [h0]
    unfold send_command
    rw [if_neg hg]
    dsimp only
    rw [hl]
    simp [powerOffInProgress_set_state, hnw]
  · have hl : sendLoop tr (if ct = "run_app" then SamCall.runApp p else SamCall.sendKey p)
        0 (rc + 1) = ([if ct = "run_app" then SamCall.runApp p else SamCall.sendKey p],
          LoopExit.oserr) := by
      unfold sendLoop
      rw [h0]
    unfold send_command
    rw [if_neg hg]
    dsimp only
    rw [hl]
    simp [powerOffInProgress_set_state, hnw]
  · have htr : tr = fun _ => TransportResult.connErr := funext h0
    unfold send_command
    rw [if_neg hg]
    dsimp only
    rw [htr, sendLoop_connErr]
    simp [powerOffInProgress_set_state, hnw]

/-- C7 counterexample: on the Samsung adapter, selecting the unmapped string
"RAW_ID" (absent from both the source table and the app table) issues no
transport command at all — the argument is not passed through unchanged, so
the pass-through fallback does not hold on "either adapter". -/
theorem samsung_unmapped_source_counterexample :
    async_select_source [("TV", "KEY_TV"), ("HDMI", "KEY_HDMI")] [] "RAW_ID" = none ∧
    async_select_source [("TV", "KEY_TV"), ("HDMI", "KEY_HDMI")] [] "RAW_ID" ≠
      some (SamCall.sendKey "RAW_ID") := by
  refine ⟨rfl, ?_⟩
  decide

/-- C7 amended: reverse alias lookup maps a configured display name to its
native identifier on both adapters; the unchanged pass-through of an unmapped
string holds only on the debug-bridge adapter, while the Samsung adapter
dispatches no transport command for a selection absent from both its source
and app tables. -/
theorem alias_reverse_lookup (appNameToId sourceList appList : List (String × String))
    (source : String) :
    (¬ pyStartsWith source "!" = true →
      ∀ native, appNameToId.lookup source = some native →
        select_source appNameToId source = [AppCall.launch native]) ∧
    (¬ pyStartsWith source "!" = true →
      appNameToId.lookup source = none →
        select_source appNameToId source = [AppCall.launch source]) ∧
    (∀ native, sourceList.lookup source = some native →
      async_select_source sourceList appList source = some (SamCall.sendKey native)) ∧
    (sourceList.lookup source = none → appList.lookup source = none →
      async_select_source sourceList appList source = none) := by
  refine ⟨fun hs native hm => ?_, fun hs hm => ?_, fun native hm => ?_, fun h1 h2 => ?_⟩
  · unfold select_source
    rw [if_pos hs]
    simp [pyGetD, hm]
  · unfold select_source
    rw [if_pos hs]
    simp [pyGetD, hm]
  · unfold async_select_source
    rw [hm]
  · unfold async_select_source
    rw [h1, h2]

/-- C7 witness: `alias_reverse_lookup` evaluated on the spec's examples —
"HDMI" resolving to "KEY_HDMI" on both adapters, "RAW_ID" passing through on
the debug-bridge adapter and being rejected on the Samsung adapter. -/
theorem alias_reverse_lookup_witness :
    select_source [("HDMI", "KEY_HDMI")] "HDMI" = [AppCall.launch "KEY_HDMI"] ∧
    select_source [("HDMI", "KEY_HDMI")] "RAW_ID" = [AppCall.launch "RAW_ID"] ∧
    async_select_source [("HDMI", "KEY_HDMI")] [] "HDMI" =
      some (SamCall.sendKey "KEY_HDMI") ∧
    async_select_source [("HDMI", "KEY_HDMI")] [] "RAW_ID" = none := by
  refine ⟨?_, ?_, ?_, ?_⟩
  · exact (alias_reverse_lookup [("HDMI", "KEY_HDMI")] [("HDMI", "KEY_HDMI")] []
      "HDMI").1 (by decide) "KEY_HDMI" (by decide)
  · exact (alias_reverse_lookup [("HDMI", "KEY_HDMI")] [("HDMI", "KEY_HDMI")] []
      "RAW_ID").2.1 (by decide) (by decide)
  · exact (alias_reverse_lookup [("HDMI", "KEY_HDMI")] [("HDMI", "KEY_HDMI")] []
      "HDMI").2.2.1 "KEY_HDMI" (by decide)
  · exact (alias_reverse_lookup [("HDMI", "KEY_HDMI")] [("HDMI", "KEY_HDMI")] []
      "RAW_ID").2.2.2 (by decide) (by decide)

/-- C8: a string source starting with `!` has the sigil stripped, then
leading whitespace, is resolved through the reverse alias table and issues
exactly one stop-app call — never a launch call; any other string issues
exactly one launch call with its resolved identifier. -/
theorem select_source_sigil (appNameToId : List (String × String)) (source : String) :
    (pyStartsWith source "!" = true →
      select_source appNameToId source =
        [AppCall.stop (pyGetD appNameToId (pyLstrip (source.drop 1))
          (pyLstrip (source.drop 1)))] ∧
      ∀ a, AppCall.launch a ∉ select_source appNameToId source) ∧
    (pyStartsWith source "!" = false →
      select_source appNameToId source =
        [AppCall.launch (pyGetD appNameToId source source)]) := by
  constructor
  · intro hs
    have he : select_source appNameToId source =
        [AppCall.stop (pyGetD appNameToId (pyLstrip (source.drop 1))
          (pyLstrip (source.drop 1)))] := by
      unfold select_source
      rw [if_neg]
      simp [hs]
    refine ⟨he, fun a hmem => ?_⟩
    rw [he] at hmem
    simp at hmem
  · intro hs
    unfold select_source
    rw [if_pos]
    simp [hs]

/-- C8 witness: `select_source_sigil` on the spec's example — "!Netflix"
stops the configured native id of "Netflix" instead of launching it, while
"Netflix" launches it. -/
theorem select_source_sigil_witness :
    select_source [("Netflix", "com.netflix.ninja")] "!Netflix" =
      [AppCall.stop "com.netflix.ninja"] ∧
    select_source [("Netflix", "com.netflix.ninja")] "Netflix" =
      [AppCall.launch "com.netflix.ninja"] := by
  constructor
  · exact ((select_source_sigil [("Netflix", "com.netflix.ninja")] "!Netflix").1
      (by decide)).1.trans (by decide)
  · exact ((select_source_sigil [("Netflix", "com.netflix.ninja")] "Netflix").2
      (by decide)).trans (by decide)

/-- C6 witness: `send_command_transport_failure` evaluated concretely on a
timeout, an OS error, and an always-failing connection. -/
theorem send_command_transport_failure_witness :
    send_command ⟨none, none, true, false⟩ "KEY_VOLUP" "send_key" 1 0
        (fun _ => TransportResult.wsTimeout) =
      (⟨some SamState.on, none, true, false⟩, true,
        [SamCall.sendKey "KEY_VOLUP", SamCall.close]) ∧
    send_command ⟨none, none, true, false⟩ "KEY_VOLUP" "send_key" 1 0
        (fun _ => TransportResult.osErr) =
      (⟨some SamState.off, none, true, false⟩, true,
        [SamCall.sendKey "KEY_VOLUP", SamCall.close]) ∧
    send_command ⟨none, none, true, false⟩ "KEY_VOLUP" "send_key" 1 0
        (fun _ => TransportResult.connErr) =
      (⟨some SamState.on, none, true, false⟩, true,
        [SamCall.sendKey "KEY_VOLUP", SamCall.close,
         SamCall.sendKey "KEY_VOLUP", SamCall.close]) := by
  refine ⟨?_, ?_, ?_⟩
  · exact ((send_command_transport_failure ⟨none, none, true, false⟩ "KEY_VOLUP"
      "send_key" 1 0 (fun _ => TransportResult.wsTimeout) rfl).1 rfl).trans (by decide)
  · exact (((send_command_transport_failure ⟨none, none, true, false⟩ "KEY_VOLUP"
      "send_key" 1 0 (fun _ => TransportResult.osErr) rfl).2.1) rfl).trans (by decide)
  · exact (((send_command_transport_failure ⟨none, none, true, false⟩ "KEY_VOLUP"
      "send_key" 1 0 (fun _ => TransportResult.connErr) rfl).2.2)
      (fun _ => rfl)).trans (by decide)

/-- C9: raw command dispatch — a symbolic key with a truthy code in the key
table is injected as a single `input keyevent <code>` shell command with the
stored response cleared; the literal command `GET_PROPERTIES` (absent from
the key table) stores and returns the string form of the property dump with
no shell command issued; any other command — in particular an unmapped
symbolic key — is sent as one literal shell command whose stripped response
is stored, with `None` stored when the response is empty, whitespace-only or
non-string. -/
theorem adb_command_spec (keys : List (String × Nat)) (props : String)
    (shellResp : Option String) (cmd : String) :
    (∀ k, keys.lookup cmd = some (k + 1) →
      adb_command keys props shellResp cmd =
        { shellCalls := ["input keyevent " ++ toString (k + 1)],
          gotProperties := false, adbResponse := none, retval := none }) ∧
    (keys.lookup "GET_PROPERTIES" = none →
      adb_command keys props shellResp "GET_PROPERTIES" =
        { shellCalls := [], gotProperties := true,
          adbResponse := some props, retval := some props }) ∧
    (keys.lookup cmd = none → cmd ≠ "GET_PROPERTIES" →
      ((adb_command keys props shellResp cmd).shellCalls = [cmd] ∧
       (adb_command keys props shellResp cmd).gotProperties = false ∧
       (∀ s, shellResp = some s → pyStrip s ≠ "" →
         (adb_command keys props shellResp cmd).adbResponse = some (pyStrip s) ∧
         (adb_command keys props shellResp cmd).retval = some (pyStrip s)) ∧
       (∀ s, shellResp = some s → pyStrip s = "" →
         (adb_command keys props shellResp cmd).adbResponse = none) ∧
       (shellResp = none →
         (adb_command keys props shellResp cmd).adbResponse = none))) := by
  refine ⟨fun k hk => ?_, fun hg => ?_, fun hn hne => ?_⟩
  · unfold adb_command
    rw [hk]
  · unfold adb_command
    rw [hg]
    simp
  · unfold adb_command
    rw [hn]
    dsimp only
    rw [if_neg hne]
    refine ⟨rfl, rfl, fun s hs hne2 => ?_, fun s hs he => ?_, fun hs => ?_⟩
    · rw [hs]
      dsimp only
      rw [if_pos hne2]
      exact ⟨rfl, rfl⟩
    · rw [hs]
      dsimp only
      rw [if_neg (by simp [he])]
    · rw [hs]

/-- C9 witness: `adb_command_spec` on a concrete key table — "HOME" injects
`input keyevent 3`, `GET_PROPERTIES` returns the property dump, the unmapped
"KEY_FOO" runs literally and stores its stripped response. -/
theorem adb_command_spec_witness :
    adb_command [("HOME", 3)] "PROPS" (some "  out  ") "HOME" =
      { shellCalls := ["input keyevent 3"], gotProperties := false,
        adbResponse := none, retval := none } ∧
    adb_command [("HOME", 3)] "PROPS" (some "  out  ") "GET_PROPERTIES" =
      { shellCalls := [], gotProperties := true,
        adbResponse := some "PROPS", retval := some "PROPS" } ∧
    (adb_command [("HOME", 3)] "PROPS" (some "  out  ") "KEY_FOO").shellCalls =
      ["KEY_FOO"] ∧
    (adb_command [("HOME", 3)] "PROPS" (some "  out  ") "KEY_FOO").adbResponse =
      some "out" := by
  refine ⟨?_, ?_, ?_, ?_⟩
  · exact ((adb_command_spec [("HOME", 3)] "PROPS" (some "  out  ") "HOME").1
      2 (by decide)).trans (by decide)
  · exact (adb_command_spec [("HOME", 3)] "PROPS" (some "  out  ")
      "GET_PROPERTIES").2.1 (by decide)
  · exact ((adb_command_spec [("HOME", 3)] "PROPS" (some "  out  ")
      "KEY_FOO").2.2 (by decide) (by decide)).1
  · exact (((adb_command_spec [("HOME", 3)] "PROPS" (some "  out  ")
      "KEY_FOO").2.2 (by decide) (by decide)).2.2.1 "  out  " rfl
      (by decide)).1.trans (by decide)

/-- C1: the `adb_decorator` wrapper — when the device is unavailable and the
operation carries no override flag, the wrapped method is never invoked and
the call returns `None` with the device untouched; when the wrapped method is
invoked and raises one of the exception kinds fixed in `self.exceptions`, the
ADB connection is closed, availability is set to `False`, and the call
returns `None` with no exception propagating. -/
theorem adbWrap_spec {σ α : Type} (overrideAvailable : Bool)
    (func : AdbDev σ → FuncOutcome σ α) (st : AdbDev σ) :
    (st.available = false → overrideAvailable = false →
      adbWrap overrideAvailable func st = (st, WrapResult.ret none, false)) ∧
    (∀ st' e, func st = FuncOutcome.raises st' e → e ∈ st.excs →
      (st.available = true ∨ overrideAvailable = true) →
      adbWrap overrideAvailable func st =
        ({ st' with adbClosed := true, available := false },
          WrapResult.ret none, true)) := by
  constructor
  · intro ha ho
    unfold adbWrap
    rw [if_pos (by simp [ha, ho])]
  · intro st' e hf he hg
    unfold adbWrap
    rw [if_neg (by rcases hg with h | h <;> simp [h]), hf]
    dsimp only
    rw [if_pos he]

/-- C1 witness: `adbWrap_spec` on two concrete devices — an unavailable one
whose wrapped call is skipped, and an available one whose wrapped call raises
the handled `TcpTimeoutException`. -/
theorem adbWrap_spec_witness :
    adbWrap false (fun s => FuncOutcome.ok s (some 7))
      (AdbDev.mk false false (adbExceptions false) ()) =
      (AdbDev.mk false false (adbExceptions false) (),
        WrapResult.ret (none : Option Nat), false) ∧
    adbWrap false
      (fun s => FuncOutcome.raises (σ := Unit) (α := Nat) s
        PyExc.tcpTimeoutException)
      (AdbDev.mk true false (adbExceptions false) ()) =
      (AdbDev.mk false true (adbExceptions false) (),
        WrapResult.ret none, true) := by
  constructor
  · exact (adbWrap_spec false (fun s => FuncOutcome.ok s (some 7))
      (AdbDev.mk false false (adbExceptions false) ())).1 rfl rfl
  · exact ((adbWrap_spec false
      (fun s => FuncOutcome.raises (σ := Unit) (α := Nat) s
        PyExc.tcpTimeoutException)
      (AdbDev.mk true false (adbExceptions false) ())).2
      (AdbDev.mk true false (adbExceptions false) ())
      PyExc.tcpTimeoutException rfl (by decide) (Or.inl rfl))

/-- When the connection is intact, the query step stores the translated
native state, drops availability exactly when the native string is
unrecognized, and reports that the state was queried. -/
theorem updateQuery_available {μ ν : Type} (t : List (String × String))
    (poll : AftvPoll μ ν) (st : AtvState μ ν) (recon : Nat)
    (hav : st.available = true) :
    (updateQuery t poll st recon).1.state = ANDROIDTV_STATES.lookup poll.state ∧
    (updateQuery t poll st recon).1.available =
      (if ANDROIDTV_STATES.lookup poll.state = none then false else st.available) ∧
    (updateQuery t poll st recon).2 =
      { reconnects := recon, stateQueried := true } := by
  unfold updateQuery
  rw [if_neg (by simp [hav])]
  dsimp only
  refine ⟨?_, ?_, rfl⟩
  · split <;> split <;> simp_all
  · split <;> split <;> simp_all

/-- C4 counterexample: with the device available and previously playing, a
poll returning the unrecognized native string "weird" makes the device
unavailable but also overwrites the exposed state with `None` — it is not
left at its previous value `playing`. -/
theorem atv_unrecognized_state_counterexample :
    (atvUpdate false true [] (AftvPoll.mk "weird" none none false (0 : Nat))
      (AtvState.mk true (some HAState.playing) none none false 0)).1.available
        = false ∧
    (atvUpdate false true [] (AftvPoll.mk "weird" none none false (0 : Nat))
      (AtvState.mk true (some HAState.playing) none none false 0)).1.state
        = none ∧
    (atvUpdate false true [] (AftvPoll.mk "weird" none none false (0 : Nat))
      (AtvState.mk true (some HAState.playing) none none false 0)).1.state
        ≠ (AtvState.mk true (some HAState.playing) none none false (0 : Nat)).state := by
  refine ⟨rfl, rfl, ?_⟩
  decide

/-- C4 amended: with the device available, a recognized native phase string
maps the exposed state to exactly one of the five translated values, while an
unrecognized string makes the device unavailable and clears the exposed state
to `None` (it is not kept at its previous value). -/
theorem atv_state_mapping {μ ν : Type} (adbServerIp connectResult : Bool)
    (appIdToName : List (String × String)) (poll : AftvPoll μ ν)
    (st : AtvState μ ν) (hav : st.available = true) :
    (∀ h, ANDROIDTV_STATES.lookup poll.state = some h →
      (atvUpdate adbServerIp connectResult appIdToName poll st).1.state = some h ∧
      h ∈ [HAState.off, HAState.idle, HAState.standby, HAState.playing,
           HAState.paused]) ∧
    (ANDROIDTV_STATES.lookup poll.state = none →
      (atvUpdate adbServerIp connectResult appIdToName poll st).1.available = false ∧
      (atvUpdate adbServerIp connectResult appIdToName poll st).1.state = none) := by
  have hu : atvUpdate adbServerIp connectResult appIdToName poll st =
      updateQuery appIdToName poll st 0 := by
    unfold atvUpdate
    rw [if_neg (by simp [hav])]
  have hq := updateQuery_available appIdToName poll st 0 hav
  constructor
  · intro h hm
    refine ⟨by rw [hu, hq.1, hm], by cases h <;> simp⟩
  · intro hm
    refine ⟨?_, by rw [hu, hq.1, hm]⟩
    rw [hu, hq.2.1, if_pos hm]

/-- C4 witness: `atv_state_mapping` evaluated on the recognized string
"playing" and the unrecognized string "weird". -/
theorem atv_state_mapping_witness :
    (atvUpdate false true [] (AftvPoll.mk "playing" none none false (0 : Nat))
      (AtvState.mk true none none none false 0)).1.state = some HAState.playing ∧
    (atvUpdate false true [] (AftvPoll.mk "weird" none none false (0 : Nat))
      (AtvState.mk true none none none false 0)).1.available = false ∧
    (atvUpdate false true [] (AftvPoll.mk "weird" none none false (0 : Nat))
      (AtvState.mk true none none none false 0)).1.state = none := by
  refine ⟨?_, ?_, ?_⟩
  · exact ((atv_state_mapping false true [] (AftvPoll.mk "playing" none none false 0)
      (AtvState.mk true none none none false 0) rfl).1 HAState.playing (by decide)).1
  · exact ((atv_state_mapping false true [] (AftvPoll.mk "weird" none none false 0)
      (AtvState.mk true none none none false 0) rfl).2 (by decide)).1
  · exact ((atv_state_mapping false true [] (AftvPoll.mk "weird" none none false 0)
      (AtvState.mk true none none none false 0) rfl).2 (by decide)).2

/-- C5: with the Python ADB implementation (no ADB server configured), a poll
cycle that begins unavailable performs exactly one reconnect attempt and ends
without querying state, whatever the reconnect returned, leaving the exposed
state untouched and availability equal to the reconnect outcome; when the
reconnect succeeded, the next poll cycle queries state normally. -/
theorem atv_reconnect_cycle {μ ν : Type} (connectResult cr2 : Bool)
    (appIdToName : List (String × String)) (poll poll2 : AftvPoll μ ν)
    (st : AtvState μ ν) (hun : st.available = false) :
    (atvUpdate false connectResult appIdToName poll st).2 =
      { reconnects := 1, stateQueried := false } ∧
    (atvUpdate false connectResult appIdToName poll st).1.state = st.state ∧
    (atvUpdate false connectResult appIdToName poll st).1.available = connectResult ∧
    (connectResult = true →
      (atvUpdate false cr2 appIdToName poll2
        (atvUpdate false connectResult appIdToName poll st).1).2.stateQueried
          = true) := by
  have hu : atvUpdate false connectResult appIdToName poll st =
      ({ st with available := connectResult },
        { reconnects := 1, stateQueried := false }) := by
    unfold atvUpdate
    rw [if_pos (by simp [hun])]
    simp
  refine ⟨by rw [hu], by rw [hu], by rw [hu], fun hc => ?_⟩
  rw [hu]
  have hav2 : ({ st with available := connectResult } : AtvState μ ν).available
      = true := hc
  have hu2 : atvUpdate false cr2 appIdToName poll2
      { st with available := connectResult } =
      updateQuery appIdToName poll2 { st with available := connectResult } 0 := by
    unfold atvUpdate
    rw [if_neg (by simp [hc])]
  rw [hu2, (updateQuery_available appIdToName poll2
    { st with available := connectResult } 0 hav2).2.2]

/-- C5 witness: `atv_reconnect_cycle` on a concrete unavailable device whose
reconnect succeeds. -/
theorem atv_reconnect_cycle_witness :
    (atvUpdate false true [] (AftvPoll.mk "playing" none none false (0 : Nat))
      (AtvState.mk false (some HAState.off) none none false 0)).2 =
      { reconnects := 1, stateQueried := false } ∧
    (atvUpdate false true [] (AftvPoll.mk "playing" none none false (0 : Nat))
      (AtvState.mk false (some HAState.off) none none false 0)).1.available = true ∧
    (atvUpdate false true [] (AftvPoll.mk "playing" none none false (0 : Nat))
      (atvUpdate false true [] (AftvPoll.mk "playing" none none false (0 : Nat))
        (AtvState.mk false (some HAState.off) none none false 0)).1).2.stateQueried
      = true := by
  refine ⟨?_, ?_, ?_⟩
  · exact (atv_reconnect_cycle true true [] (AftvPoll.mk "playing" none none false 0)
      (AftvPoll.mk "playing" none none false 0)
      (AtvState.mk false (some HAState.off) none none false 0) rfl).1
  · exact (atv_reconnect_cycle true true [] (AftvPoll.mk "playing" none none false 0)
      (AftvPoll.mk "playing" none none false 0)
      (AtvState.mk false (some HAState.off) none none false 0) rfl).2.2.1
  · exact (atv_reconnect_cycle true true [] (AftvPoll.mk "playing" none none false 0)
      (AftvPoll.mk "playing" none none false 0)
      (AtvState.mk false (some HAState.off) none none false 0) rfl).2.2.2 rfl
